import Mathlib

/-!
Shallow embedding of src/proxy_manager.py: an async proxy-pool manager with
three loops (ingestion, eviction, promotion) over a remote store holding a
working collection and a stable collection.  Network effects (probe results,
store reads, generated keys) are passed in as explicit parameters;
timestamps are integers; each loop's cycle body is a pure state transformer.
Store writes issued by a cycle are modelled as taking effect (the post/delete
succeeding), except where a flag models the post's outcome explicitly.
-/

/-- Configuration constant STABILITY_THRESHOLD (line 19): seconds of age
required before promotion. -/
def STABILITY_THRESHOLD : Int := 600

/-- Configuration constant CONCURRENCY_LIMIT (line 14). -/
def CONCURRENCY_LIMIT : Nat := 200

/-- Outcome of one network probe through a proxy: an HTTP response with a
status code, or any exception/timeout. -/
inductive ProbeOutcome
  | ok (status : Nat)
  | failure
deriving DecidableEq, Repr

/-- is_proxy_alive (lines 24-31): alive exactly when the probe returned a
response with status 200; every exception collapses to false. -/
def is_proxy_alive : ProbeOutcome → Bool
  | .ok status => status == 200
  | .failure => false

/-- Outcome of one store read (one GET of a collection): an HTTP response
with a status and an optional JSON body (none models a null body), or an
exception. -/
inductive ReadResult (α : Type)
  | ok (status : Nat) (data : Option α)
  | failure
deriving DecidableEq, Repr

/-- A working-set entry as read back from the store: every field may be
absent, mirroring dict.get on the stored JSON object. -/
structure StoredRecord where
  address : Option String
  created_at : Option Int
  last_checked : Option Int
  status : Option String
deriving DecidableEq, Repr

/-- A stable-set entry as built by the promotion loop (lines 153-158). -/
structure StableRecord where
  address : Option String
  promoted_at : Int
  original_key : String
  age_seconds : Int
deriving DecidableEq, Repr

/-- get_existing_proxies (lines 33-44): on a 200 response with a truthy body,
the set of truthy address fields of the records; on any other status, a null
body or an exception, the empty set.  Generic over the record type through
the address projection, since the code reads either collection by URL. -/
def get_existing_proxies {α : Type} (addrOf : α → Option String)
    (r : ReadResult (List (String × α))) : List String :=
  match r with
  | .ok status (some data) =>
      if status == 200 then
        (data.filterMap (fun kv => addrOf kv.2)).filter (fun a => a != "")
      else []
  | _ => []

/-- The whitespace characters Python str.strip() removes. -/
def isPySpace (c : Char) : Bool :=
  c == ' ' || c == '\t' || c == '\n' || c == '\r' || c == '\x0b' || c == '\x0c'

/-- Python str.strip() with no argument: drop leading and trailing
whitespace. -/
def pyStrip (s : String) : String :=
  ⟨((s.data.dropWhile isPySpace).reverse.dropWhile isPySpace).reverse⟩

/-- Python str.split(sep) with a one-character separator: "".split(sep) is
[""], and a trailing separator yields a trailing empty piece. -/
def pySplit (sep : Char) (s : String) : List String :=
  (s.data.foldr
    (fun c acc =>
      match acc with
      | [] => [[c]]
      | cur :: rest => if c == sep then [] :: cur :: rest else (c :: cur) :: rest)
    [[]]).map (fun l => ⟨l⟩)

/-- The proxy_data JSON object built by validate_and_add (lines 56-61), with
the dict literal's two time.time() calls modelled separately: t1 is the
first call's reading (last_checked, line 58), t2 the second call's reading
(created_at, line 59).  The two calls are adjacent with no await between
them, but the program does not guarantee they return equal values. -/
def proxy_data (proxy_addr : String) (t1 t2 : Int) : StoredRecord :=
  { address := some proxy_addr, last_checked := some t1,
    created_at := some t2, status := some "active" }

/-- The inserted record when both time.time() calls return the same
reading: the single-clock instance of proxy_data, used by the cycle and
interleaving models, whose claims do not turn on the two readings
differing. -/
def mkProxyRecord (address : String) (now : Int) : StoredRecord :=
  proxy_data address now now

/-- validate_and_add (lines 46-69), sequential determinization: strip the
candidate, drop blanks, drop addresses already in the known set, probe, and
on a live probe post the record; postOk models the post returning 200, in
which case the record is in the working collection (under the store-assigned
key) and the address joins the known set.  The state is the pair
(known set of addresses, working collection as key-record pairs). -/
def validate_and_add (net : String → ProbeOutcome) (postOk : Bool) (now : Int)
    (key : String) (proxy_addr : String)
    (st : List String × List (String × StoredRecord)) :
    List String × List (String × StoredRecord) :=
  let a := pyStrip proxy_addr
  if a = "" then st
  else if st.1.contains a then st
  else if is_proxy_alive (net a) then
    if postOk then (st.1 ++ [a], st.2 ++ [(key, mkProxyRecord a now)])
    else st
  else st

/-- validate_and_add (lines 46-69) with the record literal's two time.time()
calls kept separate: t1 is the first reading (last_checked), t2 the second
(created_at); otherwise identical to validate_and_add, which is its
t1 = t2 instance. -/
def validate_and_add_clocks (net : String → ProbeOutcome) (postOk : Bool)
    (t1 t2 : Int) (key : String) (proxy_addr : String)
    (st : List String × List (String × StoredRecord)) :
    List String × List (String × StoredRecord) :=
  let a := pyStrip proxy_addr
  if a = "" then st
  else if st.1.contains a then st
  else if is_proxy_alive (net a) then
    if postOk then (st.1 ++ [a], st.2 ++ [(key, proxy_data a t1 t2)])
    else st
  else st

/-- check_and_delete (lines 97-106): probe once; on failure delete that key
from the working collection; on success do nothing. -/
def check_and_delete (net : String → ProbeOutcome) (key : String)
    (proxy_addr : String) (working : List (String × StoredRecord)) :
    List (String × StoredRecord) :=
  if is_proxy_alive (net proxy_addr) then working
  else working.filter (fun kv => kv.1 != key)

/-- Truthiness of val.get("address"): present and non-empty. -/
def truthyAddr (r : StoredRecord) : Bool :=
  match r.address with
  | some a => a != ""
  | none => false

/-- The two remote collections: the working set (key-record pairs) and the
stable set (insertion-ordered records; store keys for it are only relevant
when it is read back, see stability_monitor_cycle). -/
structure SysState where
  working : List (String × StoredRecord)
  stable : List StableRecord
deriving DecidableEq, Repr

/-- Body of one iteration of fetch_and_store_loop (lines 77-95): apiText is
the bulk response body (none models a transport failure or non-200 status,
which skips the cycle); keys enumerates the store-assigned keys of this
cycle's posts.  Candidates are validated sequentially here; the interleaved
execution of the gathered tasks is modelled separately below. -/
def fetch_and_store_cycle (net : String → ProbeOutcome) (postOk : Bool)
    (now : Int) (apiText : Option String) (keys : Nat → String)
    (workingRead : ReadResult (List (String × StoredRecord)))
    (s : SysState) : SysState :=
  match apiText with
  | none => s
  | some text =>
      let proxies := pySplit '\n' (pyStrip text)
      let existing := get_existing_proxies (fun r => r.address) workingRead
      { s with working :=
          (proxies.enum.foldl
            (fun st p => validate_and_add net postOk now (keys p.1) p.2 st)
            (existing, s.working)).2 }

/-- Body of one iteration of cleanup_loop (lines 113-130): on a 200 read,
spawn check_and_delete for every entry with a truthy address; any other
read outcome leaves the cycle with nothing to do. -/
def cleanup_cycle (net : String → ProbeOutcome)
    (workingRead : ReadResult (List (String × StoredRecord)))
    (s : SysState) : SysState :=
  match workingRead with
  | .ok status (some data) =>
      if status == 200 then
        let tasks := data.filter (fun kv => truthyAddr kv.2)
        let working2 := tasks.foldl
          (fun w kv => check_and_delete net kv.1 (kv.2.address.getD "") w)
          s.working
        { s with working := working2 }
      else s
  | _ => s

/-- One entry of the promotion scan (lines 146-162): default a missing
created_at to the scan time, compute the age, and promote when the age
reaches the threshold and the address is not in the known-stable snapshot;
a successful post appends the address to the snapshot.  The accumulator is
(known-stable snapshot, stable collection); the snapshot holds Option
String because val.get("address") may be absent (Python None) and is then
added to the set as-is. -/
def promoteEntry (threshold now : Int)
    (acc : List (Option String) × List StableRecord)
    (kv : String × StoredRecord) :
    List (Option String) × List StableRecord :=
  let p_addr := kv.2.address
  let created_at := kv.2.created_at.getD now
  let age := now - created_at
  if threshold ≤ age ∧ acc.1.contains p_addr = false then
    (acc.1 ++ [p_addr],
     acc.2 ++ [{ address := p_addr, promoted_at := now,
                 original_key := kv.1, age_seconds := age }])
  else acc

/-- Body of one iteration of stability_monitor_loop (lines 136-168): on a
200 working-set read with a truthy body, snapshot the stable collection's
addresses once, then scan the working entries sequentially with
promoteEntry; stableRead is the raw read of the stable collection. -/
def stability_monitor_cycle (threshold now : Int)
    (workingRead : ReadResult (List (String × StoredRecord)))
    (stableRead : ReadResult (List (String × StableRecord)))
    (s : SysState) : SysState :=
  match workingRead with
  | .ok status (some data) =>
      if status == 200 then
        let stable_existing : List (Option String) :=
          (get_existing_proxies (fun r => r.address) stableRead).map some
        { s with stable :=
            (data.foldl (promoteEntry threshold now) (stable_existing, s.stable)).2 }
      else s
  | _ => s

/-!
Interleaved execution of validate_and_add.  Within one ingestion cycle the
gathered tasks suspend at each await; the atomic segments of
validate_and_add (lines 46-69) are: (1) strip, blank check and the
lock-guarded membership check, up to the probe's first await; (2) the
probe's result and, when alive, issuing the post that stores the record;
(3) the post's result and the lock-guarded addition of the address to the
known set.  The asyncio event loop may run any ready task between two
segments; a schedule is the list of task indices in the order their next
segments run.
-/

/-- Where a validation task stands: before its membership check, past the
check with the probe in flight, past a live probe with the record stored
and the known-set addition pending, or finished. -/
inductive TaskPhase
  | start | checked | posted | finished
deriving DecidableEq, Repr

/-- One gathered validate_and_add task: its raw candidate address and its
current phase. -/
structure VTask where
  addr : String
  phase : TaskPhase
deriving DecidableEq, Repr

/-- State of one ingestion cycle's gathered batch: the in-memory known set,
the records stored in the working collection so far, and the tasks. -/
structure MState where
  known : List String
  inserted : List StoredRecord
  tasks : List VTask
deriving DecidableEq, Repr

/-- Replace task i's phase. -/
def setPhase (s : MState) (i : Nat) (t : VTask) (ph : TaskPhase) : MState :=
  { s with tasks := s.tasks.set i { t with phase := ph } }

/-- Run task i's next atomic segment of validate_and_add (lines 46-69);
posts are modelled as succeeding with status 200. -/
def vstep (net : String → ProbeOutcome) (now : Int) (s : MState) (i : Nat) :
    MState :=
  match s.tasks[i]? with
  | none => s
  | some t =>
    match t.phase with
    | .start =>
        let a := pyStrip t.addr
        if a = "" then setPhase s i t .finished
        else if s.known.contains a then setPhase s i t .finished
        else setPhase s i t .checked
    | .checked =>
        let a := pyStrip t.addr
        if is_proxy_alive (net a) then
          { setPhase s i t .posted with
              inserted := s.inserted ++ [mkProxyRecord a now] }
        else setPhase s i t .finished
    | .posted =>
        { setPhase s i t .finished with known := s.known ++ [pyStrip t.addr] }
    | .finished => s

/-- Run a whole schedule of atomic segments. -/
def vrun (net : String → ProbeOutcome) (now : Int) (s : MState)
    (sched : List Nat) : MState :=
  sched.foldl (vstep net now) s

/-- How many stored working-set records carry a given address. -/
def countAddr (recs : List StoredRecord) (a : String) : Nat :=
  (recs.filter (fun r => r.address == some a)).length

/-- How many stable records carry a given address. -/
def countStable (recs : List StableRecord) (a : String) : Nat :=
  (recs.filter (fun r => r.address == some a)).length

/-- A promotion-scan entry that meets both conditions appends the stable
record and the address. -/
lemma promoteEntry_promotes (threshold now : Int) (addrs : List (Option String))
    (stab : List StableRecord) (k : String) (rec : StoredRecord) (a : String) (c : Int)
    (hrec : rec.address = some a) (hc : rec.created_at = some c)
    (hage : threshold ≤ now - c) (hnew : addrs.contains (some a) = false) :
    promoteEntry threshold now (addrs, stab) (k, rec) =
      (addrs ++ [some a],
       stab ++ [{ address := some a, promoted_at := now,
                  original_key := k, age_seconds := now - c }]) := by
  unfold promoteEntry
  simp only [hrec, hc, Option.getD_some]
  rw [if_pos ⟨hage, hnew⟩]

/-- A promotion-scan entry whose address is in the known-stable snapshot is
skipped. -/
lemma promoteEntry_skips (threshold now : Int)
    (acc : List (Option String) × List StableRecord) (kv : String × StoredRecord)
    (h : acc.1.contains kv.2.address = true) :
    promoteEntry threshold now acc kv = acc := by
  unfold promoteEntry
  rw [if_neg]
  intro hand
  rw [h] at hand
  exact absurd hand.2 (by simp)

/-- The promotion scan only ever appends to the stable collection. -/
lemma foldl_promoteEntry_snd_extends (threshold now : Int)
    (data : List (String × StoredRecord)) :
    ∀ acc : List (Option String) × List StableRecord,
      ∃ t, (data.foldl (promoteEntry threshold now) acc).2 = acc.2 ++ t := by
  induction data with
  | nil => exact fun acc => ⟨[], by simp⟩
  | cons kv rest ih =>
      intro acc
      obtain ⟨t, ht⟩ := ih (promoteEntry threshold now acc kv)
      have hstep : ∃ u, (promoteEntry threshold now acc kv).2 = acc.2 ++ u := by
        simp only [promoteEntry]
        split
        · exact ⟨_, rfl⟩
        · exact ⟨[], by simp⟩
      obtain ⟨u, hu⟩ := hstep
      refine ⟨u ++ t, ?_⟩
      rw [List.foldl_cons, ht, hu, List.append_assoc]

/-- validate_and_add is validate_and_add_clocks with both time.time() calls
returning the same reading. -/
lemma validate_and_add_eq_clocks (net : String → ProbeOutcome) (postOk : Bool)
    (now : Int) (key proxy_addr : String)
    (st : List String × List (String × StoredRecord)) :
    validate_and_add net postOk now key proxy_addr st =
      validate_and_add_clocks net postOk now now key proxy_addr st := rfl

/-- check_and_delete keeps every entry whose key differs from its target. -/
lemma check_and_delete_preserves (net : String → ProbeOutcome) (key proxy_addr : String)
    (w : List (String × StoredRecord)) (kv : String × StoredRecord)
    (hkv : kv ∈ w) (hne : kv.1 ≠ key) :
    kv ∈ check_and_delete net key proxy_addr w := by
  unfold check_and_delete
  split
  · exact hkv
  · exact List.mem_filter.2 ⟨hkv, by simpa using hne⟩

/-- A batch of eviction tasks keeps every entry whose key none of them
targets. -/
lemma foldl_check_and_delete_preserves (net : String → ProbeOutcome)
    (tasks : List (String × StoredRecord)) (kv : String × StoredRecord) :
    ∀ w : List (String × StoredRecord), kv ∈ w →
      (∀ kv2 ∈ tasks, kv2.1 ≠ kv.1) →
      kv ∈ tasks.foldl
        (fun w2 kv2 => check_and_delete net kv2.1 (kv2.2.address.getD "") w2) w := by
  induction tasks with
  | nil => exact fun w hw _ => hw
  | cons t rest ih =>
      intro w hw hall
      rw [List.foldl_cons]
      refine ih _ ?_ (fun kv2 h2 => hall kv2 (List.mem_cons_of_mem t h2))
      exact check_and_delete_preserves net t.1 (t.2.address.getD "") w kv hw
        (fun he => hall t (List.mem_cons_self t rest) he.symm)

/-- C1 counterexample: one ingestion cycle whose candidate list holds
"1.2.3.4:8080" twice, the address not in the known-set snapshot at cycle
start, every probe alive.  Under the interleaving in which both tasks pass
the lock-guarded membership check before either completes its probe (the
schedule 0, 1, 0, 0, 1, 1 of atomic segments), two ProxyRecords for the
address are stored: the membership check and the conditional insert are not
atomic together, since the lock is released across the probe and post
awaits. -/
theorem C1_counterexample :
    countAddr (vrun (fun _ => ProbeOutcome.ok 200) 0
      { known := [], inserted := [],
        tasks := [{ addr := "1.2.3.4:8080", phase := .start },
                  { addr := "1.2.3.4:8080", phase := .start }] }
      [0, 1, 0, 0, 1, 1]).inserted "1.2.3.4:8080" = 2 := by decide

/-- C1 (amended): with two validation tasks for the same candidate address,
the address not in the known set at cycle start, at most one ProxyRecord
for it is inserted when the validations run serialized (each task's atomic
segments complete before the next task starts, schedule 0, 0, 0, 1, 1, 1);
the lock makes each individual known-set operation atomic, not the
membership check plus conditional insert together. -/
theorem C1_serialized (net : String → ProbeOutcome) (now : Int) (x : String)
    (known : List String) (h : known.contains (pyStrip x) = false) :
    countAddr (vrun net now
      { known := known, inserted := [],
        tasks := [{ addr := x, phase := .start }, { addr := x, phase := .start }] }
      [0, 0, 0, 1, 1, 1]).inserted (pyStrip x) ≤ 1 := by
  simp at h
  simp only [vrun, List.foldl]
  by_cases ha : pyStrip x = ""
  · have e1 : vstep net now
        { known := known, inserted := [],
          tasks := [{ addr := x, phase := .start }, { addr := x, phase := .start }] } 0 =
        { known := known, inserted := [],
          tasks := [{ addr := x, phase := .finished }, { addr := x, phase := .start }] } := by
      simp [vstep, setPhase, ha]
    have e2 : vstep net now
        { known := known, inserted := [],
          tasks := [{ addr := x, phase := .finished }, { addr := x, phase := .start }] } 0 =
        { known := known, inserted := [],
          tasks := [{ addr := x, phase := .finished }, { addr := x, phase := .start }] } := rfl
    have e3 : vstep net now
        { known := known, inserted := [],
          tasks := [{ addr := x, phase := .finished }, { addr := x, phase := .start }] } 1 =
        { known := known, inserted := [],
          tasks := [{ addr := x, phase := .finished }, { addr := x, phase := .finished }] } := by
      simp [vstep, setPhase, ha]
    have e4 : vstep net now
        { known := known, inserted := [],
          tasks := [{ addr := x, phase := .finished }, { addr := x, phase := .finished }] } 1 =
        { known := known, inserted := [],
          tasks := [{ addr := x, phase := .finished }, { addr := x, phase := .finished }] } := rfl
    rw [e1, e2, e2, e3, e4, e4]
    simp [countAddr]
  · by_cases hl : is_proxy_alive (net (pyStrip x)) = true
    · have e1 : vstep net now
          { known := known, inserted := [],
            tasks := [{ addr := x, phase := .start }, { addr := x, phase := .start }] } 0 =
          { known := known, inserted := [],
            tasks := [{ addr := x, phase := .checked }, { addr := x, phase := .start }] } := by
        simp [vstep, setPhase, ha, h]
      have e2 : vstep net now
          { known := known, inserted := [],
            tasks := [{ addr := x, phase := .checked }, { addr := x, phase := .start }] } 0 =
          { known := known, inserted := [mkProxyRecord (pyStrip x) now],
            tasks := [{ addr := x, phase := .posted }, { addr := x, phase := .start }] } := by
        simp [vstep, setPhase, hl]
      have e3 : vstep net now
          { known := known, inserted := [mkProxyRecord (pyStrip x) now],
            tasks := [{ addr := x, phase := .posted }, { addr := x, phase := .start }] } 0 =
          { known := known ++ [pyStrip x], inserted := [mkProxyRecord (pyStrip x) now],
            tasks := [{ addr := x, phase := .finished }, { addr := x, phase := .start }] } := by
        simp [vstep, setPhase]
      have e4 : vstep net now
          { known := known ++ [pyStrip x], inserted := [mkProxyRecord (pyStrip x) now],
            tasks := [{ addr := x, phase := .finished }, { addr := x, phase := .start }] } 1 =
          { known := known ++ [pyStrip x], inserted := [mkProxyRecord (pyStrip x) now],
            tasks := [{ addr := x, phase := .finished }, { addr := x, phase := .finished }] } := by
        simp [vstep, setPhase, ha]
      have e5 : vstep net now
          { known := known ++ [pyStrip x], inserted := [mkProxyRecord (pyStrip x) now],
            tasks := [{ addr := x, phase := .finished }, { addr := x, phase := .finished }] } 1 =
          { known := known ++ [pyStrip x], inserted := [mkProxyRecord (pyStrip x) now],
            tasks := [{ addr := x, phase := .finished }, { addr := x, phase := .finished }] } := rfl
      rw [e1, e2, e3, e4, e5, e5]
      simp [countAddr, mkProxyRecord, proxy_data]
    · simp only [Bool.not_eq_true] at hl
      have e1 : vstep net now
          { known := known, inserted := [],
            tasks := [{ addr := x, phase := .start }, { addr := x, phase := .start }] } 0 =
          { known := known, inserted := [],
            tasks := [{ addr := x, phase := .checked }, { addr := x, phase := .start }] } := by
        simp [vstep, setPhase, ha, h]
      have e2 : vstep net now
          { known := known, inserted := [],
            tasks := [{ addr := x, phase := .checked }, { addr := x, phase := .start }] } 0 =
          { known := known, inserted := [],
            tasks := [{ addr := x, phase := .finished }, { addr := x, phase := .start }] } := by
        simp [vstep, setPhase, hl]
      have e3 : vstep net now
          { known := known, inserted := [],
            tasks := [{ addr := x, phase := .finished }, { addr := x, phase := .start }] } 0 =
          { known := known, inserted := [],
            tasks := [{ addr := x, phase := .finished }, { addr := x, phase := .start }] } := rfl
      have e4 : vstep net now
          { known := known, inserted := [],
            tasks := [{ addr := x, phase := .finished }, { addr := x, phase := .start }] } 1 =
          { known := known, inserted := [],
            tasks := [{ addr := x, phase := .finished }, { addr := x, phase := .checked }] } := by
        simp [vstep, setPhase, ha, h]
      have e5 : vstep net now
          { known := known, inserted := [],
            tasks := [{ addr := x, phase := .finished }, { addr := x, phase := .checked }] } 1 =
          { known := known, inserted := [],
            tasks := [{ addr := x, phase := .finished }, { addr := x, phase := .finished }] } := by
        simp [vstep, setPhase, hl]
      have e6 : vstep net now
          { known := known, inserted := [],
            tasks := [{ addr := x, phase := .finished }, { addr := x, phase := .finished }] } 1 =
          { known := known, inserted := [],
            tasks := [{ addr := x, phase := .finished }, { addr := x, phase := .finished }] } := rfl
      rw [e1, e2, e3, e4, e5, e6]
      simp [countAddr]

/-- C1 witness: the serialized schedule at a concrete input. -/
theorem C1_serialized_witness :
    countAddr (vrun (fun _ => ProbeOutcome.ok 200) 0
      { known := [], inserted := [],
        tasks := [{ addr := "1.2.3.4:8080", phase := .start },
                  { addr := "1.2.3.4:8080", phase := .start }] }
      [0, 0, 0, 1, 1, 1]).inserted (pyStrip "1.2.3.4:8080") ≤ 1 :=
  C1_serialized (fun _ => ProbeOutcome.ok 200) 0 "1.2.3.4:8080" [] (by decide)

/-- C2: a candidate that is blank, already in the known set, or whose probe
is not alive leads to no insert into the working collection; conversely any
change to the working collection by validate_and_add requires an alive
probe, so a ProxyRecord is created only after a successful probe. -/
theorem C2_liveness_gating (net : String → ProbeOutcome) (postOk : Bool) (now : Int)
    (key proxy_addr : String) (st : List String × List (String × StoredRecord)) :
    (pyStrip proxy_addr = "" ∨ st.1.contains (pyStrip proxy_addr) = true ∨
        is_proxy_alive (net (pyStrip proxy_addr)) = false →
      validate_and_add net postOk now key proxy_addr st = st) ∧
    ((validate_and_add net postOk now key proxy_addr st).2 ≠ st.2 →
      is_proxy_alive (net (pyStrip proxy_addr)) = true) := by
  have base : pyStrip proxy_addr = "" ∨ st.1.contains (pyStrip proxy_addr) = true ∨
      is_proxy_alive (net (pyStrip proxy_addr)) = false →
      validate_and_add net postOk now key proxy_addr st = st := by
    rintro (h | h | h)
    · simp [validate_and_add, h]
    · simp at h
      simp [validate_and_add, h]
    · simp [validate_and_add, h]
  refine ⟨base, fun hne => ?_⟩
  by_cases hl : is_proxy_alive (net (pyStrip proxy_addr)) = true
  · exact hl
  · simp only [Bool.not_eq_true] at hl
    exact absurd (congrArg Prod.snd (base (Or.inr (Or.inr hl)))) hne

/-- C2 witness: a dead probe at a concrete candidate changes nothing. -/
theorem C2_witness :
    validate_and_add (fun _ => ProbeOutcome.failure) true 0 "k" "1.2.3.4:8080"
      ([], []) = ([], []) :=
  (C2_liveness_gating (fun _ => ProbeOutcome.failure) true 0 "k" "1.2.3.4:8080"
    ([], [])).1 (Or.inr (Or.inr rfl))

/-- C3: in one eviction task, the key is deleted from the working collection
exactly when the probe fails; on a successful probe the collection, hence
every record in it including its last_checked field, is left unchanged. -/
theorem C3_eviction (net : String → ProbeOutcome) (key proxy_addr : String)
    (working : List (String × StoredRecord)) :
    (is_proxy_alive (net proxy_addr) = true →
      check_and_delete net key proxy_addr working = working) ∧
    (is_proxy_alive (net proxy_addr) = false →
      check_and_delete net key proxy_addr working =
        working.filter (fun kv => kv.1 != key)) ∧
    (∀ kv ∈ working, (kv ∈ check_and_delete net key proxy_addr working ↔
      (is_proxy_alive (net proxy_addr) = true ∨ kv.1 ≠ key))) := by
  refine ⟨fun h => by simp [check_and_delete, h],
          fun h => by simp [check_and_delete, h],
          fun kv hkv => ?_⟩
  by_cases h : is_proxy_alive (net proxy_addr) = true
  · simp [check_and_delete, h, hkv]
  · simp only [Bool.not_eq_true] at h
    simp [check_and_delete, h, List.mem_filter, hkv]

/-- C3 witness: a failed probe at a concrete entry deletes exactly that key. -/
theorem C3_witness :
    check_and_delete (fun _ => ProbeOutcome.failure) "k1" "1.2.3.4:8080"
      [("k1", mkProxyRecord "1.2.3.4:8080" 0)] =
      List.filter (fun kv => kv.1 != "k1")
        [("k1", mkProxyRecord "1.2.3.4:8080" 0)] :=
  (C3_eviction (fun _ => ProbeOutcome.failure) "k1" "1.2.3.4:8080"
    [("k1", mkProxyRecord "1.2.3.4:8080" 0)]).2.1 rfl

/-- C5: a working-set entry with no created_at gets age
now - created_at.getD now = 0 and, for any positive threshold, is not
promoted: the promotion scan leaves its accumulator unchanged at that
entry. -/
theorem C5_age_default (threshold now : Int)
    (acc : List (Option String) × List StableRecord) (kv : String × StoredRecord)
    (hmissing : kv.2.created_at = none) (hpos : 0 < threshold) :
    now - (kv.2.created_at.getD now) = 0 ∧
    promoteEntry threshold now acc kv = acc := by
  refine ⟨by rw [hmissing]; simp, ?_⟩
  unfold promoteEntry
  rw [hmissing]
  simp only [Option.getD_none]
  rw [if_neg]
  intro hand
  have h1 : threshold ≤ now - now := hand.1
  omega

/-- C5 witness: a concrete record lacking created_at is not promoted under
the configured threshold. -/
theorem C5_witness :
    (0 : Int) - ((("k1",
        ({ address := some "1.2.3.4:8080", created_at := none,
           last_checked := none, status := none } : StoredRecord)).2.created_at).getD 0) = 0 ∧
    promoteEntry STABILITY_THRESHOLD 0 ([], [])
      ("k1", { address := some "1.2.3.4:8080", created_at := none,
               last_checked := none, status := none }) = ([], []) :=
  C5_age_default STABILITY_THRESHOLD 0 ([], [])
    ("k1", { address := some "1.2.3.4:8080", created_at := none,
             last_checked := none, status := none }) rfl (by decide)

/-- C6: a promoted entry (age at least the threshold, address not in the
known-stable snapshot) appends a StableRecord carrying the entry's address,
original_key equal to its working-set key, promoted_at equal to the scan
time and age_seconds equal to the age computed at that scan time, and adds
the address to the snapshot. -/
theorem C6_promoted_record (threshold now : Int) (addrs : List (Option String))
    (stab : List StableRecord) (k : String) (rec : StoredRecord) (a : String) (c : Int)
    (hrec : rec.address = some a) (hc : rec.created_at = some c)
    (hage : threshold ≤ now - c) (hnew : addrs.contains (some a) = false) :
    promoteEntry threshold now (addrs, stab) (k, rec) =
      (addrs ++ [some a],
       stab ++ [{ address := some a, promoted_at := now,
                  original_key := k, age_seconds := now - c }]) :=
  promoteEntry_promotes threshold now addrs stab k rec a c hrec hc hage hnew

/-- C6 witness: the end-to-end promotion scenario, a record created 700
seconds before the scan with threshold 600. -/
theorem C6_witness :
    promoteEntry STABILITY_THRESHOLD 700 ([], [])
      ("w1", { address := some "1.2.3.4:8080", created_at := some 0,
               last_checked := some 0, status := some "active" }) =
      ([some "1.2.3.4:8080"],
       [{ address := some "1.2.3.4:8080", promoted_at := 700,
          original_key := "w1", age_seconds := 700 - 0 }]) :=
  C6_promoted_record STABILITY_THRESHOLD 700 [] [] "w1"
    { address := some "1.2.3.4:8080", created_at := some 0,
      last_checked := some 0, status := some "active" }
    "1.2.3.4:8080" 0 rfl rfl (by decide) rfl

/-- C7 counterexample: the record literal samples the clock twice,
last_checked at the first time.time() call and created_at at the second;
when the two adjacent calls return different readings (here 5, then 6),
the record inserted for a live candidate has created_at different from
last_checked, so the program does not guarantee the claimed equality. -/
theorem C7_counterexample :
    ("k0", proxy_data "1.2.3.4:8080" 5 6) ∈
      (validate_and_add_clocks (fun _ => ProbeOutcome.ok 200) true 5 6 "k0"
        "1.2.3.4:8080" ([], [])).2 ∧
    ("k0", proxy_data "1.2.3.4:8080" 5 6).2.created_at ≠
      ("k0", proxy_data "1.2.3.4:8080" 5 6).2.last_checked := by decide

/-- C7 (amended): every record in the working collection after
validate_and_add_clocks is either one that was already there or the newly
inserted ProxyRecord, whose last_checked carries the first time.time()
reading at insertion, whose created_at carries the second, adjacent
reading, whose status is "active", and whose created_at equals its
last_checked whenever the two readings agree; the exact equality is not
guaranteed, since the clock is sampled twice. -/
theorem C7_record_fields (net : String → ProbeOutcome) (postOk : Bool)
    (t1 t2 : Int) (key proxy_addr : String)
    (st : List String × List (String × StoredRecord))
    (kv : String × StoredRecord)
    (hkv : kv ∈ (validate_and_add_clocks net postOk t1 t2 key proxy_addr st).2) :
    kv ∈ st.2 ∨
      (kv.2.last_checked = some t1 ∧ kv.2.created_at = some t2 ∧
       kv.2.status = some "active" ∧
       (t1 = t2 → kv.2.created_at = kv.2.last_checked)) := by
  unfold validate_and_add_clocks at hkv
  by_cases ha : pyStrip proxy_addr = ""
  · simp only [ha, if_pos rfl] at hkv
    exact Or.inl hkv
  · rw [if_neg ha] at hkv
    by_cases hc : st.1.contains (pyStrip proxy_addr)
    · rw [if_pos hc] at hkv
      exact Or.inl hkv
    · rw [if_neg hc] at hkv
      by_cases hl : is_proxy_alive (net (pyStrip proxy_addr)) = true
      · rw [if_pos hl] at hkv
        by_cases hp : postOk = true
        · rw [if_pos hp] at hkv
          rcases List.mem_append.1 hkv with h | h
          · exact Or.inl h
          · rcases List.mem_singleton.1 h with rfl
            refine Or.inr ⟨rfl, rfl, rfl, fun ht => ?_⟩
            simp [proxy_data, ht]
        · rw [if_neg hp] at hkv
          exact Or.inl hkv
      · rw [if_neg hl] at hkv
        exact Or.inl hkv

/-- C7 witness: the record inserted for a concrete live candidate, the two
clock readings distinct (5, then 6), carries exactly the per-call
timestamps and the active status. -/
theorem C7_witness :
    ("k0", proxy_data "1.2.3.4:8080" 5 6) ∈ ([] : List (String × StoredRecord)) ∨
      ((proxy_data "1.2.3.4:8080" 5 6).last_checked = some 5 ∧
       (proxy_data "1.2.3.4:8080" 5 6).created_at = some 6 ∧
       (proxy_data "1.2.3.4:8080" 5 6).status = some "active" ∧
       ((5 : Int) = 6 → (proxy_data "1.2.3.4:8080" 5 6).created_at =
          (proxy_data "1.2.3.4:8080" 5 6).last_checked)) :=
  C7_record_fields (fun _ => ProbeOutcome.ok 200) true 5 6 "k0" "1.2.3.4:8080"
    ([], []) ("k0", proxy_data "1.2.3.4:8080" 5 6) (by decide)

/-- C4: two promotion cycles against the unchanged one-record working set,
the record older than the threshold and the stable collection initially
empty, yield exactly one StableRecord for the record's address: the first
cycle promotes it, and the second cycle's stable-set pre-scan (reading back
what the first inserted, under whatever store key) suppresses
re-promotion. -/
theorem C4_idempotent_promotion (threshold now1 now2 : Int) (k a : String) (c : Int)
    (rec : StoredRecord) (keyed : List (String × StableRecord))
    (hrec : rec.address = some a) (hc : rec.created_at = some c)
    (ha : a ≠ "") (hage : threshold ≤ now1 - c)
    (hkeyed : keyed.map Prod.snd =
      (stability_monitor_cycle threshold now1 (.ok 200 (some [(k, rec)]))
        (.ok 200 none) { working := [(k, rec)], stable := [] }).stable) :
    countStable
      (stability_monitor_cycle threshold now2 (.ok 200 (some [(k, rec)]))
        (.ok 200 (some keyed))
        (stability_monitor_cycle threshold now1 (.ok 200 (some [(k, rec)]))
          (.ok 200 none) { working := [(k, rec)], stable := [] })).stable a = 1 := by
  have hs1 : stability_monitor_cycle threshold now1 (.ok 200 (some [(k, rec)]))
      (.ok 200 none) { working := [(k, rec)], stable := [] } =
      { working := [(k, rec)],
        stable := [{ address := some a, promoted_at := now1,
                     original_key := k, age_seconds := now1 - c }] } := by
    unfold stability_monitor_cycle
    dsimp only
    rw [if_pos (by simp)]
    simp only [get_existing_proxies, List.map_nil, List.foldl]
    rw [promoteEntry_promotes threshold now1 [] [] k rec a c hrec hc hage rfl]
    simp
  rw [hs1] at hkeyed ⊢
  rcases keyed with _ | ⟨⟨k2, x2⟩, t⟩
  · simp at hkeyed
  · rcases t with _ | ⟨y, t2⟩
    · have hx2 : x2 = { address := some a, promoted_at := now1,
                        original_key := k, age_seconds := now1 - c } := by
        simpa using hkeyed
      subst hx2
      unfold stability_monitor_cycle
      dsimp only
      rw [if_pos (by simp)]
      have hsnap : (get_existing_proxies (fun r : StableRecord => r.address)
          (.ok 200 (some [(k2, { address := some a, promoted_at := now1,
                                 original_key := k, age_seconds := now1 - c })]))).map some =
          [some a] := by
        simp [get_existing_proxies, ha]
      dsimp only
      rw [hsnap]
      simp only [List.foldl]
      rw [promoteEntry_skips threshold now2 _ (k, rec) (by simp [hrec])]
      simp [countStable]
    · have hlen := congrArg List.length hkeyed
      simp at hlen

/-- C4 witness: threshold 600, a record created 700 seconds before the
first scan, the second scan 30 seconds later. -/
theorem C4_witness :
    countStable
      (stability_monitor_cycle STABILITY_THRESHOLD 730
        (.ok 200 (some [("w1", { address := some "1.2.3.4:8080", created_at := some 0,
                                 last_checked := some 0, status := some "active" })]))
        (.ok 200 (some [("s1", { address := some "1.2.3.4:8080", promoted_at := 700,
                                 original_key := "w1", age_seconds := 700 - 0 })]))
        (stability_monitor_cycle STABILITY_THRESHOLD 700
          (.ok 200 (some [("w1", { address := some "1.2.3.4:8080", created_at := some 0,
                                   last_checked := some 0, status := some "active" })]))
          (.ok 200 none)
          { working := [("w1", { address := some "1.2.3.4:8080", created_at := some 0,
                                 last_checked := some 0, status := some "active" })],
            stable := [] })).stable "1.2.3.4:8080" = 1 :=
  C4_idempotent_promotion STABILITY_THRESHOLD 700 730 "w1" "1.2.3.4:8080" 0
    { address := some "1.2.3.4:8080", created_at := some 0,
      last_checked := some 0, status := some "active" }
    [("s1", { address := some "1.2.3.4:8080", promoted_at := 700,
              original_key := "w1", age_seconds := 700 - 0 })]
    rfl rfl (by decide) (by decide) (by decide)

/-- C8: every error is absorbed at its boundary: a probe exception or
non-200 status is alive = false, a failed or non-200 read of either
collection yields the empty set in get_existing_proxies, and each of the
three cycle bodies, given a failed read of its driving collection (or of
the bulk source for ingestion), completes as the identity on the state and
so proceeds to its sleep. -/
theorem C8_error_isolation (net : String → ProbeOutcome) (postOk : Bool)
    (now threshold : Int) (keys : Nat → String)
    (wr : ReadResult (List (String × StoredRecord)))
    (sr : ReadResult (List (String × StableRecord)))
    (s : SysState) (status : Nat)
    (data : Option (List (String × StoredRecord))) (h : status ≠ 200) :
    is_proxy_alive ProbeOutcome.failure = false ∧
    is_proxy_alive (ProbeOutcome.ok status) = false ∧
    get_existing_proxies (fun r : StoredRecord => r.address) ReadResult.failure = [] ∧
    get_existing_proxies (fun r : StoredRecord => r.address)
      (ReadResult.ok status data) = [] ∧
    cleanup_cycle net ReadResult.failure s = s ∧
    cleanup_cycle net (ReadResult.ok status data) s = s ∧
    stability_monitor_cycle threshold now ReadResult.failure sr s = s ∧
    stability_monitor_cycle threshold now (ReadResult.ok status data) sr s = s ∧
    fetch_and_store_cycle net postOk now none keys wr s = s := by
  have hb : (status == 200) = false := by simpa using h
  refine ⟨rfl, ?_, rfl, ?_, rfl, ?_, rfl, ?_, rfl⟩
  · simp [is_proxy_alive, hb]
  · cases data <;> simp [get_existing_proxies, hb]
  · cases data <;> simp [cleanup_cycle, hb]
  · cases data <;> simp [stability_monitor_cycle, hb]

/-- C8 witness: a concrete failing environment (exceptions and a 500
status) leaves a concrete state unchanged in every cycle. -/
theorem C8_witness :
    is_proxy_alive ProbeOutcome.failure = false ∧
    is_proxy_alive (ProbeOutcome.ok 500) = false ∧
    get_existing_proxies (fun r : StoredRecord => r.address) ReadResult.failure = [] ∧
    get_existing_proxies (fun r : StoredRecord => r.address)
      (ReadResult.ok 500 none) = [] ∧
    cleanup_cycle (fun _ => ProbeOutcome.failure) ReadResult.failure
      { working := [], stable := [] } = { working := [], stable := [] } ∧
    cleanup_cycle (fun _ => ProbeOutcome.failure) (ReadResult.ok 500 none)
      { working := [], stable := [] } = { working := [], stable := [] } ∧
    stability_monitor_cycle 600 0 ReadResult.failure ReadResult.failure
      { working := [], stable := [] } = { working := [], stable := [] } ∧
    stability_monitor_cycle 600 0 (ReadResult.ok 500 none) ReadResult.failure
      { working := [], stable := [] } = { working := [], stable := [] } ∧
    fetch_and_store_cycle (fun _ => ProbeOutcome.failure) true 0 none (fun _ => "")
      ReadResult.failure { working := [], stable := [] } =
      { working := [], stable := [] } :=
  C8_error_isolation (fun _ => ProbeOutcome.failure) true 0 600 (fun _ => "")
    ReadResult.failure ReadResult.failure { working := [], stable := [] } 500 none
    (by decide)

/-- C9: no loop deletes from the stable collection: the ingestion and
eviction cycle bodies leave the stable collection exactly as it was (their
only mutations target the working set), and the promotion cycle body only
appends to it, so a StableRecord once inserted is never removed. -/
theorem C9_stable_never_deleted (net : String → ProbeOutcome) (postOk : Bool)
    (now threshold : Int) (keys : Nat → String) (apiText : Option String)
    (wr : ReadResult (List (String × StoredRecord)))
    (sr : ReadResult (List (String × StableRecord))) (s : SysState) :
    (fetch_and_store_cycle net postOk now apiText keys wr s).stable = s.stable ∧
    (cleanup_cycle net wr s).stable = s.stable ∧
    ∃ t, (stability_monitor_cycle threshold now wr sr s).stable = s.stable ++ t := by
  refine ⟨?_, ?_, ?_⟩
  · cases apiText <;> rfl
  · unfold cleanup_cycle
    rcases wr with ⟨status, _ | d⟩ | _
    · rfl
    · dsimp only
      split
      · rfl
      · rfl
    · rfl
  · unfold stability_monitor_cycle
    rcases wr with ⟨status, _ | d⟩ | _
    · exact ⟨[], by simp⟩
    · dsimp only
      split
      · obtain ⟨t, ht⟩ := foldl_promoteEntry_snd_extends threshold now d
          ((get_existing_proxies (fun r => r.address) sr).map some, s.stable)
        exact ⟨t, ht⟩
      · exact ⟨[], by simp⟩
    · exact ⟨[], by simp⟩

/-- C10: a working-set entry whose record has no truthy address field is
filtered out before eviction tasks are spawned, so no task targets it and
the eviction cycle keeps it in the working set (keys identify entries in
the store's JSON object). -/
theorem C10_no_address_no_eviction (net : String → ProbeOutcome)
    (data : List (String × StoredRecord)) (stab : List StableRecord)
    (kv : String × StoredRecord) (hkv : kv ∈ data)
    (haddr : truthyAddr kv.2 = false)
    (hkeys : ∀ kv2 ∈ data, kv2.1 = kv.1 → kv2 = kv) :
    kv ∉ data.filter (fun kv2 => truthyAddr kv2.2) ∧
    kv ∈ (cleanup_cycle net (ReadResult.ok 200 (some data))
      { working := data, stable := stab }).working := by
  constructor
  · intro hmem
    have hT := (List.mem_filter.1 hmem).2
    rw [haddr] at hT
    exact absurd hT (by simp)
  · unfold cleanup_cycle
    dsimp only
    rw [if_pos (by simp)]
    dsimp only
    refine foldl_check_and_delete_preserves net _ kv data hkv ?_
    intro kv2 h2 he
    have h2d := List.mem_filter.1 h2
    have heq : kv2 = kv := hkeys kv2 h2d.1 he
    rw [heq, haddr] at h2d
    exact absurd h2d.2 (by simp)

/-- C10 witness: a concrete entry lacking an address survives a concrete
eviction cycle in which every probe fails. -/
theorem C10_witness :
    ("k1", ({ address := none, created_at := some 0, last_checked := some 0,
              status := some "active" } : StoredRecord)) ∉
      List.filter (fun kv2 => truthyAddr kv2.2)
        [("k1", { address := none, created_at := some 0, last_checked := some 0,
                  status := some "active" })] ∧
    ("k1", ({ address := none, created_at := some 0, last_checked := some 0,
              status := some "active" } : StoredRecord)) ∈
      (cleanup_cycle (fun _ => ProbeOutcome.failure) (ReadResult.ok 200
        (some [("k1", { address := none, created_at := some 0, last_checked := some 0,
                        status := some "active" })]))
        { working := [("k1", { address := none, created_at := some 0,
                               last_checked := some 0, status := some "active" })],
          stable := [] }).working :=
  C10_no_address_no_eviction (fun _ => ProbeOutcome.failure)
    [("k1", { address := none, created_at := some 0, last_checked := some 0,
              status := some "active" })] []
    ("k1", { address := none, created_at := some 0, last_checked := some 0,
             status := some "active" })
    (by decide) rfl (by decide)
